import Mathlib

/-!
Verification of the user-facing data model and request handlers of the
backend-server-ummah messaging backend.

The embedding below translates:
  * the PostgreSQL schema (tables, check constraint, ON DELETE clauses),
  * the `UserController` request handlers from src/controllers/user.controller.js,
and, where the repository's service layer is not part of the sources at hand
(user.service.js, the messaging service), models it from the specification;
each such definition carries a doc comment starting `Modelled from the spec:`.

Tables are lists of rows; primary-key generation (uuid_generate_v4) is
abstracted by passing fresh ids as arguments.
-/

/-- A row of the `users` table (schema lines 7-19). -/
structure UserRow where
  id : String
  phone_number : String
  name : Option String
  email : Option String
  photo : Option String
  status : Option String
  verified : Bool
  disabled : Bool
  role : String
  deriving Repr, DecidableEq

/-- A row of the `otps` table (user_id nullable, ON DELETE CASCADE). -/
structure OtpRow where
  id : String
  user_id : Option String
  phone_number : String
  otp_code : String
  deriving Repr, DecidableEq

/-- A row of the `sessions` table (user_id NOT NULL, ON DELETE CASCADE). -/
structure SessionRow where
  id : String
  user_id : String
  token : String
  deriving Repr, DecidableEq

/-- A row of the `groups` table (created_by NOT NULL, ON DELETE CASCADE). -/
structure GroupRow where
  id : String
  name : String
  created_by : String
  photo : Option String
  only_admins_can_post : Bool
  disabled : Bool
  deriving Repr, DecidableEq

/-- A row of the `group_members` table: group_id and user_id cascade,
`added_by` is ON DELETE SET NULL; UNIQUE (group_id, user_id). -/
structure GroupMemberRow where
  id : String
  group_id : String
  user_id : String
  is_admin : Bool
  added_by : Option String
  deriving Repr, DecidableEq

/-- A row of the `messages` table: from_id NOT NULL, to_id and group_id
nullable, all three cascade on delete of the referenced row. -/
structure MessageRow where
  id : String
  from_id : String
  to_id : Option String
  group_id : Option String
  content : Option String
  type_ : Int
  deriving Repr, DecidableEq

/-- The CHECK constraint of the `messages` table (schema line 95):
`(to_id IS NULL AND group_id IS NOT NULL) OR (to_id IS NOT NULL AND group_id IS NULL)`. -/
def messagesCheck (m : MessageRow) : Bool :=
  (m.to_id.isNone && m.group_id.isSome) || (m.to_id.isSome && m.group_id.isNone)

/-- A row of the `user_messages` table: user_id and message_id cascade,
UNIQUE (user_id, message_id). -/
structure UserMessageRow where
  id : String
  user_id : String
  message_id : String
  is_read : Bool
  deriving Repr, DecidableEq

/-- A row of the `blocked_users` table: blocker_id and blocked_id cascade,
UNIQUE (blocker_id, blocked_id). -/
structure BlockedUserRow where
  id : String
  blocker_id : String
  blocked_id : String
  deriving Repr, DecidableEq

/-- A row of the `notification_tokens` table (user_id cascades, token UNIQUE). -/
structure NotificationTokenRow where
  id : String
  user_id : String
  token : String
  device_id : Option String
  deriving Repr, DecidableEq

/-- A row of the `reported_users` table: reporter_id and reported_id cascade,
no uniqueness constraint beyond the primary key. -/
structure ReportedUserRow where
  id : String
  reporter_id : String
  reported_id : String
  reason : Option String
  deriving Repr, DecidableEq

/-- A row of the `reported_groups` table. -/
structure ReportedGroupRow where
  id : String
  reporter_id : String
  group_id : String
  reason : Option String
  deriving Repr, DecidableEq

/-- The database state: one list per table of the schema that the user-facing
operations touch. -/
structure DB where
  users : List UserRow
  otps : List OtpRow
  sessions : List SessionRow
  groups : List GroupRow
  group_members : List GroupMemberRow
  messages : List MessageRow
  user_messages : List UserMessageRow
  blocked_users : List BlockedUserRow
  notification_tokens : List NotificationTokenRow
  reported_users : List ReportedUserRow
  reported_groups : List ReportedGroupRow
  deriving Repr, DecidableEq

/-- `ApiError(statusCode, message)` as thrown by the controllers. -/
structure ApiError where
  status : Nat
  message : String
  deriving Repr, DecidableEq

/-- The success envelope `{error: false, message}` with its HTTP status. -/
structure Resp where
  status : Nat
  error : Bool
  message : String
  deriving Repr, DecidableEq

/-- A handler's outcome: the (possibly updated) database together with either
the success envelope or the `ApiError` forwarded to the error middleware. -/
abbrev HandlerResult := DB × Except ApiError Resp

/-- Look up a user row by id. -/
def findUser (db : DB) (id : String) : Option UserRow :=
  db.users.find? (fun u => u.id == id)

/-- Modelled from the spec: `userService.getUserById(id)` "fails with NotFound
if no row matches" (the service source is not among the files at hand). -/
def getUserByIdService (db : DB) (id : String) : Except ApiError UserRow :=
  match findUser db id with
  | some u => .ok u
  | none => .error ⟨404, "User not found"⟩

/-- JavaScript falsiness of the `reason` body field: `!reason` is true when
the field is absent (undefined/null) or the empty string. -/
def reasonFalsy (reason : Option String) : Bool :=
  match reason with
  | none => true
  | some s => s == ""

/-- `reportUser` handler (user.controller.js lines 167-198): path `id`, body
`reason`, authenticated caller `reportedBy`. Checks `!reason`, then
self-report, then target existence, then `INSERT INTO reported_users`.
The INSERT's column list is mapped onto the schema's
(reporter_id, reported_id) columns as one consistent contract. -/
def reportUser (db : DB) (newId : String) (id : String) (reason : Option String)
    (reportedBy : String) : HandlerResult :=
  if reasonFalsy reason then
    (db, .error ⟨400, "Reason is required"⟩)
  else if id == reportedBy then
    (db, .error ⟨400, "You cannot report yourself"⟩)
  else
    match getUserByIdService db id with
    | .error e => (db, .error e)
    | .ok _ =>
      let row : ReportedUserRow := ⟨newId, reportedBy, id, reason⟩
      ({ db with reported_users := db.reported_users ++ [row] },
        .ok ⟨200, false, "User reported successfully"⟩)

/-- `blockUser` handler (user.controller.js lines 206-232): self-block check,
target existence check, then `INSERT ... ON CONFLICT DO NOTHING` into
blocked_users (blocker = caller, blocked = path id). -/
def blockUser (db : DB) (newId : String) (id : String) (blockedBy : String) :
    HandlerResult :=
  if id == blockedBy then
    (db, .error ⟨400, "You cannot block yourself"⟩)
  else
    match getUserByIdService db id with
    | .error e => (db, .error e)
    | .ok _ =>
      let db' :=
        if db.blocked_users.any
            (fun b => b.blocker_id == blockedBy && b.blocked_id == id) then db
        else { db with blocked_users :=
                db.blocked_users ++ [⟨newId, blockedBy, id⟩] }
      (db', .ok ⟨200, false, "User blocked successfully"⟩)

/-- `unblockUser` handler (user.controller.js lines 240-258): deletes the
(caller, path id) row from blocked_users with no prior existence check; the
response message depends on `result.rowCount`. Always HTTP 200, error=false. -/
def unblockUser (db : DB) (id : String) (blockedBy : String) : HandlerResult :=
  let hit : BlockedUserRow → Bool :=
    fun b => b.blocker_id == blockedBy && b.blocked_id == id
  let rowCount := db.blocked_users.countP hit
  ({ db with blocked_users := db.blocked_users.filter (fun b => !(hit b)) },
    .ok ⟨200, false,
      if rowCount > 0 then "User unblocked successfully" else "User was not blocked"⟩)

/-- The request body of `PUT /api/users/:id` as the handler can observe it:
the four destructured fields (an outer `Option` for presence in the body, an
inner `Option` for a JSON null value) plus the privileged fields a caller
might also send, which the handler never reads. -/
structure UpdateUserBody where
  name : Option (Option String)
  email : Option (Option String)
  photo : Option (Option String)
  status : Option (Option String)
  phone_number : Option String
  verified : Option Bool
  disabled : Option Bool
  role : Option String
  deriving Repr, DecidableEq

/-- The `userData` object the handler assembles: only fields that were not
`undefined` in the body (user.controller.js lines 68-72). -/
structure UserData where
  name : Option (Option String)
  email : Option (Option String)
  photo : Option (Option String)
  status : Option (Option String)
  deriving Repr, DecidableEq

def buildUserData (b : UpdateUserBody) : UserData :=
  ⟨b.name, b.email, b.photo, b.status⟩

/-- The row produced by applying a partial `userData` update: a supplied
field overwrites, an unsupplied one is kept. -/
def appliedUpdate (d : UserData) (u : UserRow) : UserRow :=
  { u with
    name := d.name.getD u.name
    email := d.email.getD u.email
    photo := d.photo.getD u.photo
    status := d.status.getD u.status }

/-- Modelled from the spec: `userService.updateUser(id, partialFields)`
"applies only supplied fields (name/email/photo/status); fails NotFound if
the target user is gone" (user.service.js is not among the files at hand). -/
def updateUserService (db : DB) (id : String) (d : UserData) :
    Except ApiError (DB × UserRow) :=
  match findUser db id with
  | none => .error ⟨404, "User not found"⟩
  | some u =>
    .ok ({ db with users := db.users.map (fun v => if v.id == id then appliedUpdate d u else v) },
      appliedUpdate d u)

/-- `updateUser` handler (user.controller.js lines 63-84). -/
def updateUser (db : DB) (id : String) (body : UpdateUserBody) : HandlerResult :=
  match updateUserService db id (buildUserData body) with
  | .error e => (db, .error e)
  | .ok (db', _) => (db', .ok ⟨200, false, "User updated successfully"⟩)

/-- Modelled from the spec: `userService.updateVerificationStatus(id, verified)`
is a privileged idempotent flag update; per §4.6 the existence check surfaces
NotFound before any mutation. -/
def updateVerificationStatusService (db : DB) (id : String) (v : Bool) :
    Except ApiError (DB × UserRow) :=
  match findUser db id with
  | none => .error ⟨404, "User not found"⟩
  | some u =>
    let u' : UserRow := { u with verified := v }
    .ok ({ db with users := db.users.map (fun w => if w.id == id then u' else w) }, u')

/-- `updateVerificationStatus` handler (user.controller.js lines 92-111):
rejects a body without `verified` before any service call. -/
def updateVerificationStatus (db : DB) (id : String) (verified : Option Bool) :
    HandlerResult :=
  match verified with
  | none => (db, .error ⟨400, "Verified status is required"⟩)
  | some v =>
    match updateVerificationStatusService db id v with
    | .error e => (db, .error e)
    | .ok (db', _) =>
      (db', .ok ⟨200, false,
        "User " ++ (if v then "verified" else "unverified") ++ " successfully"⟩)

/-- Modelled from the spec: `userService.updateDisabledStatus(id, disabled)`,
symmetric to the verification update. -/
def updateDisabledStatusService (db : DB) (id : String) (v : Bool) :
    Except ApiError (DB × UserRow) :=
  match findUser db id with
  | none => .error ⟨404, "User not found"⟩
  | some u =>
    let u' : UserRow := { u with disabled := v }
    .ok ({ db with users := db.users.map (fun w => if w.id == id then u' else w) }, u')

/-- `updateDisabledStatus` handler (user.controller.js lines 119-138). -/
def updateDisabledStatus (db : DB) (id : String) (disabled : Option Bool) :
    HandlerResult :=
  match disabled with
  | none => (db, .error ⟨400, "Disabled status is required"⟩)
  | some v =>
    match updateDisabledStatusService db id v with
    | .error e => (db, .error e)
    | .ok (db', _) =>
      (db', .ok ⟨200, false,
        "User " ++ (if v then "disabled" else "enabled") ++ " successfully"⟩)

/-- Cascade semantics of `DELETE FROM users WHERE id = uid`, translated from
the schema's referential actions: otps, sessions, groups (created_by),
group_members (user_id), messages (from_id, to_id, and transitively a deleted
group's messages), user_messages (user_id, and transitively a deleted
message's rows), blocked_users, notification_tokens, reported_users cascade;
`group_members.added_by` is SET NULL; reported_groups cascade with a deleted
group. -/
def deleteUserCascade (db : DB) (uid : String) : DB :=
  let deadGroups := (db.groups.filter (fun g => g.created_by == uid)).map (fun g => g.id)
  let msgDead : MessageRow → Bool := fun m =>
    m.from_id == uid || m.to_id == some uid ||
      (match m.group_id with
        | some g => deadGroups.contains g
        | none => false)
  let deadMessages := (db.messages.filter msgDead).map (fun m => m.id)
  { users := db.users.filter (fun v => !(v.id == uid))
    otps := db.otps.filter (fun o => !(o.user_id == some uid))
    sessions := db.sessions.filter (fun s => !(s.user_id == uid))
    groups := db.groups.filter (fun g => !(g.created_by == uid))
    group_members :=
      (db.group_members.filter
          (fun m => !(m.user_id == uid || deadGroups.contains m.group_id))).map
        (fun m => if m.added_by == some uid then { m with added_by := none } else m)
    messages := db.messages.filter (fun m => !(msgDead m))
    user_messages := db.user_messages.filter
      (fun w => !(w.user_id == uid || deadMessages.contains w.message_id))
    blocked_users := db.blocked_users.filter
      (fun b => !(b.blocker_id == uid || b.blocked_id == uid))
    notification_tokens := db.notification_tokens.filter (fun t => !(t.user_id == uid))
    reported_users := db.reported_users.filter
      (fun r => !(r.reporter_id == uid || r.reported_id == uid))
    reported_groups := db.reported_groups.filter
      (fun r => !(r.reporter_id == uid || deadGroups.contains r.group_id)) }

/-- Modelled from the spec: `userService.deleteUser(id)` "cascades per schema";
§4.6 requires the existence check to surface NotFound before any mutation. -/
def deleteUserService (db : DB) (id : String) : Except ApiError DB :=
  match findUser db id with
  | none => .error ⟨404, "User not found"⟩
  | some _ => .ok (deleteUserCascade db id)

/-- `deleteUser` handler (user.controller.js lines 146-159). -/
def deleteUser (db : DB) (id : String) : HandlerResult :=
  match deleteUserService db id with
  | .error e => (db, .error e)
  | .ok db' => (db', .ok ⟨200, false, "User deleted successfully"⟩)

/-- JavaScript `parseInt` restricted to the base-10 inputs the controller
feeds it: skip leading whitespace, optional sign, then the longest leading
run of decimal digits; `none` models a `NaN` result. -/
def jsParseInt (s : String) : Option Int :=
  let cs := s.toList.dropWhile
    (fun c => c == ' ' || c == '\t' || c == '\n' || c == '\r')
  let signed : Int × List Char :=
    match cs with
    | '-' :: rest => (-1, rest)
    | '+' :: rest => (1, rest)
    | _ => (1, cs)
  let digits := signed.2.takeWhile Char.isDigit
  if digits.isEmpty then none
  else some (signed.1 *
    Int.ofNat (digits.foldl (fun a c => a * 10 + (c.toNat - '0'.toNat)) 0))

/-- The query string of `GET /api/users` as the handler observes it. -/
structure ListQuery where
  page : Option String
  limit : Option String
  search : Option String
  deriving Repr, DecidableEq

/-- The argument triple the `getAllUsers` handler passes to
`userService.getAllUsers` (user.controller.js lines 15-23): destructuring
defaults page=1, limit=20, search='' apply when a parameter is absent; the
numeric defaults go through `parseInt` via number-to-string coercion. -/
def getAllUsersArgs (q : ListQuery) : Option Int × Option Int × String :=
  (jsParseInt (q.page.getD "1"), jsParseInt (q.limit.getD "20"), q.search.getD "")

/-- Modelled from the spec: the membership rows of a group, read at send
time (§4.5 makes them the sole source of truth for group fan-out; the
messaging service source is not among the files at hand). -/
def groupMembersOf (db : DB) (gid : String) : List GroupMemberRow :=
  db.group_members.filter (fun m => m.group_id == gid)

/-- The intended recipients of a group message: every current member of the
group except the sender. -/
def groupRecipients (db : DB) (gid senderId : String) : List String :=
  ((groupMembersOf db gid).map (fun m => m.user_id)).filter
    (fun v => !(v == senderId))

/-- Modelled from the spec: `sendMessage(senderId, target, content, metadata,
type)` of §4.4. Validates that exactly one of the user/group targets is
supplied, failing InvalidArgument otherwise before reaching storage; direct
sends fail Forbidden under a block in either direction; group sends fail
Forbidden for non-members and, when only_admins_can_post is set, for
non-admin members. On success it inserts the Message row and fans out one
UserMessage row per intended recipient in one atomic step. -/
def sendMessage (db : DB) (msgId : String) (senderId : String)
    (toId groupId : Option String) (content : Option String) (ty : Int) :
    HandlerResult :=
  match toId, groupId with
  | none, none =>
    (db, .error ⟨400, "Exactly one of user or group target is required"⟩)
  | some _, some _ =>
    (db, .error ⟨400, "Exactly one of user or group target is required"⟩)
  | some uid, none =>
    if db.blocked_users.any (fun b =>
        (b.blocker_id == uid && b.blocked_id == senderId) ||
        (b.blocker_id == senderId && b.blocked_id == uid)) then
      (db, .error ⟨403, "Messaging is blocked between these users"⟩)
    else
      let msg : MessageRow := ⟨msgId, senderId, some uid, none, content, ty⟩
      ({ db with
          messages := db.messages ++ [msg]
          user_messages := db.user_messages ++ [⟨msgId ++ "/" ++ uid, uid, msgId, false⟩] },
        .ok ⟨200, false, "Message sent successfully"⟩)
  | none, some gid =>
    if !((groupMembersOf db gid).any (fun m => m.user_id == senderId)) then
      (db, .error ⟨403, "Sender is not a member of the group"⟩)
    else if (db.groups.find? (fun g => g.id == gid)).elim false
        (fun g => g.only_admins_can_post) &&
        !((groupMembersOf db gid).any (fun m => m.user_id == senderId && m.is_admin)) then
      (db, .error ⟨403, "Only admins can post in this group"⟩)
    else
      let msg : MessageRow := ⟨msgId, senderId, none, some gid, content, ty⟩
      let fan := (groupRecipients db gid senderId).map
        (fun v => (⟨msgId ++ "/" ++ v, v, msgId, false⟩ : UserMessageRow))
      ({ db with
          messages := db.messages ++ [msg]
          user_messages := db.user_messages ++ fan },
        .ok ⟨200, false, "Message sent successfully"⟩)

/-- The UNIQUE (group_id, user_id) constraint of the group_members table,
as a property of a database state. -/
def groupMembersUnique (db : DB) : Prop :=
  db.group_members.Pairwise (fun a b => ¬(a.group_id = b.group_id ∧ a.user_id = b.user_id))

/-- Concrete rows and states used to evaluate the operations. -/
def uRow1 : UserRow := ⟨"u1", "111", none, none, none, none, false, false, "user"⟩

def uRow2 : UserRow := ⟨"u2", "222", none, none, none, none, false, false, "user"⟩

def uRow3 : UserRow := ⟨"u3", "333", none, none, none, none, false, false, "user"⟩

/-- A state with a single registered user. -/
def dbSolo : DB := ⟨[uRow1], [], [], [], [], [], [], [], [], [], []⟩

/-- A state with two registered users and no other rows. -/
def dbTwo : DB := ⟨[uRow1, uRow2], [], [], [], [], [], [], [], [], [], []⟩

/-- A state with three users and one group, "g1", created by u3 with all
three as members (u3 the only admin); u1 added u2 and u3. -/
def dbGrp : DB :=
  ⟨[uRow1, uRow2, uRow3], [], [],
    [⟨"g1", "G", "u3", none, false, false⟩],
    [⟨"gm1", "g1", "u1", false, none⟩,
      ⟨"gm2", "g1", "u2", false, some "u1"⟩,
      ⟨"gm3", "g1", "u3", true, some "u1"⟩],
    [], [], [], [], [], []⟩

/-- **C9.** A request to the verification or disabled-status update endpoint
whose body omits the required boolean field is rejected with InvalidArgument
(HTTP 400, messages 'Verified status is required' / 'Disabled status is
required') and the database is untouched — no service call happens. -/
theorem c9_required_flag_guards (db : DB) (id : String) :
    updateVerificationStatus db id none =
      (db, .error ⟨400, "Verified status is required"⟩) ∧
    updateDisabledStatus db id none =
      (db, .error ⟨400, "Disabled status is required"⟩) :=
  ⟨rfl, rfl⟩

/-- **C9** witness at a concrete state. -/
theorem c9_required_flag_guards_witness :
    updateVerificationStatus dbSolo "u1" none =
      (dbSolo, .error ⟨400, "Verified status is required"⟩) ∧
    updateDisabledStatus dbSolo "u1" none =
      (dbSolo, .error ⟨400, "Disabled status is required"⟩) :=
  c9_required_flag_guards dbSolo "u1"

/-- **C10.** When `page`, `limit`, or `search` is absent from the query,
`getAllUsers` delegates with the defaults page=1, limit=20, search='', so a
fully unparameterized listing is equivalent to page="1", limit="20",
search="". -/
theorem c10_listing_defaults (p l s : Option String) :
    (getAllUsersArgs ⟨none, l, s⟩).1 = some 1 ∧
    (getAllUsersArgs ⟨p, none, s⟩).2.1 = some 20 ∧
    (getAllUsersArgs ⟨p, l, none⟩).2.2 = "" ∧
    getAllUsersArgs ⟨none, none, none⟩ =
      getAllUsersArgs ⟨some "1", some "20", some ""⟩ :=
  ⟨rfl, rfl, rfl, rfl⟩

/-- **C10** witness: the unparameterized listing delegates (1, 20, ''). -/
theorem c10_listing_defaults_witness :
    (getAllUsersArgs ⟨none, none, none⟩).1 = some 1 ∧
    (getAllUsersArgs ⟨none, none, none⟩).2.1 = some 20 ∧
    (getAllUsersArgs ⟨none, none, none⟩).2.2 = "" ∧
    getAllUsersArgs ⟨none, none, none⟩ =
      getAllUsersArgs ⟨some "1", some "20", some ""⟩ :=
  c10_listing_defaults none none none

/-- A two-user state in which u1 has blocked u2. -/
def dbBlk : DB :=
  ⟨[uRow1, uRow2], [], [], [], [], [], [], [⟨"b1", "u1", "u2"⟩], [], [], []⟩

/-- Deleting a block that is not present leaves the state unchanged and
reports the informational message. -/
theorem unblockUser_no_match (db : DB) (id actor : String)
    (h : db.blocked_users.any
      (fun b => b.blocker_id == actor && b.blocked_id == id) = false) :
    unblockUser db id actor = (db, .ok ⟨200, false, "User was not blocked"⟩) := by
  have hall := List.any_eq_false.mp h
  have hcount : db.blocked_users.countP
      (fun b => b.blocker_id == actor && b.blocked_id == id) = 0 :=
    List.countP_eq_zero.mpr hall
  have hfilter : db.blocked_users.filter
      (fun b => !(b.blocker_id == actor && b.blocked_id == id)) = db.blocked_users := by
    refine List.filter_eq_self.mpr ?_
    intro b hb
    have hpb : (b.blocker_id == actor && b.blocked_id == id) = false := by
      have hnb := hall b hb
      simp only [Bool.not_eq_true] at hnb
      exact hnb
    simp [hpb]
  simp only [unblockUser]
  rw [hcount, hfilter]
  simp

/-- **C6.** `unblockUser` deletes the (blocker, blocked) row when one exists
and responds 'User unblocked successfully'; when no such row exists it still
succeeds (HTTP 200, error=false) with the informational 'User was not
blocked' message and the stored state is unchanged. -/
theorem c6_unblockUser_contract (db : DB) (id actor : String) :
    (db.blocked_users.any
        (fun b => b.blocker_id == actor && b.blocked_id == id) = true →
      (unblockUser db id actor).2 =
        .ok ⟨200, false, "User unblocked successfully"⟩ ∧
      (unblockUser db id actor).1.blocked_users.countP
        (fun b => b.blocker_id == actor && b.blocked_id == id) = 0 ∧
      (unblockUser db id actor).1.users = db.users) ∧
    (db.blocked_users.any
        (fun b => b.blocker_id == actor && b.blocked_id == id) = false →
      unblockUser db id actor = (db, .ok ⟨200, false, "User was not blocked"⟩)) := by
  constructor
  · intro hany
    have hpos : 0 < db.blocked_users.countP
        (fun b => b.blocker_id == actor && b.blocked_id == id) := by
      rcases List.any_eq_true.mp hany with ⟨b, hb, hpb⟩
      exact List.countP_pos_iff.mpr ⟨b, hb, hpb⟩
    refine ⟨?_, ?_, rfl⟩
    · simp only [unblockUser]
      simp [hpos]
    · simp only [unblockUser]
      refine List.countP_eq_zero.mpr ?_
      intro b hb
      have hmem := List.mem_filter.mp hb
      have hpb : (b.blocker_id == actor && b.blocked_id == id) = false := by
        have hnb := hmem.2
        simp only [Bool.not_eq_true'] at hnb
        exact hnb
      simp [hpb]
  · intro hany
    exact unblockUser_no_match db id actor hany

/-- **C6** witness: deleting an existing block succeeds with the unblock
message; deleting a non-existent block succeeds with the informational
message and an unchanged state. -/
theorem c6_unblockUser_contract_witness :
    dbBlk.blocked_users.any
      (fun b => b.blocker_id == "u1" && b.blocked_id == "u2") = true ∧
    (unblockUser dbBlk "u2" "u1").2 =
      .ok ⟨200, false, "User unblocked successfully"⟩ ∧
    dbTwo.blocked_users.any
      (fun b => b.blocker_id == "u1" && b.blocked_id == "u2") = false ∧
    unblockUser dbTwo "u2" "u1" = (dbTwo, .ok ⟨200, false, "User was not blocked"⟩) :=
  ⟨rfl, ((c6_unblockUser_contract dbBlk "u2" "u1").1 rfl).1, rfl,
    (c6_unblockUser_contract dbTwo "u2" "u1").2 rfl⟩

/-- **C4.** `reportUser` fails InvalidArgument (400) when the reason is
missing/empty or when the reporter targets themselves — self-reports fail
with 400 whatever the reason; it fails NotFound (404) when the target does
not exist; otherwise it appends one reported_users row, and a repeated
identical report succeeds again, appending a second row (no deduplication). -/
theorem c4_reportUser_contract (db : DB) (nid id actor : String)
    (reason : Option String) :
    (reasonFalsy reason = true →
      reportUser db nid id reason actor =
        (db, .error ⟨400, "Reason is required"⟩)) ∧
    (id = actor → ∃ m, reportUser db nid id reason actor = (db, .error ⟨400, m⟩)) ∧
    (reasonFalsy reason = false → id ≠ actor → findUser db id = none →
      reportUser db nid id reason actor = (db, .error ⟨404, "User not found"⟩)) ∧
    (reasonFalsy reason = false → id ≠ actor → ∀ u, findUser db id = some u →
      reportUser db nid id reason actor =
        ({ db with reported_users :=
            db.reported_users ++ [⟨nid, actor, id, reason⟩] },
          .ok ⟨200, false, "User reported successfully"⟩) ∧
      ∀ nid2,
        reportUser (reportUser db nid id reason actor).1 nid2 id reason actor =
          ({ db with reported_users := db.reported_users ++
              [⟨nid, actor, id, reason⟩, ⟨nid2, actor, id, reason⟩] },
            .ok ⟨200, false, "User reported successfully"⟩)) := by
  refine ⟨?_, ?_, ?_, ?_⟩
  · intro hf
    simp [reportUser, hf]
  · intro heq
    by_cases hf : reasonFalsy reason
    · exact ⟨"Reason is required", by simp [reportUser, hf]⟩
    · exact ⟨"You cannot report yourself", by simp [reportUser, hf, heq]⟩
  · intro hf hne hfind
    simp [reportUser, hf, hne, getUserByIdService, hfind]
  · intro hf hne u hfind
    have h1 : reportUser db nid id reason actor =
        ({ db with reported_users :=
            db.reported_users ++ [⟨nid, actor, id, reason⟩] },
          .ok ⟨200, false, "User reported successfully"⟩) := by
      simp [reportUser, hf, hne, getUserByIdService, hfind]
    refine ⟨h1, ?_⟩
    intro nid2
    rw [h1]
    have hfind2 : findUser { db with reported_users :=
        db.reported_users ++ [⟨nid, actor, id, reason⟩] } id = some u := hfind
    simp [reportUser, hf, hne, getUserByIdService, hfind2]

/-- **C4** witness: a concrete report by u1 against u2 appends one row and a
repeated report appends a second row. -/
theorem c4_reportUser_contract_witness :
    reasonFalsy (some "spam") = false ∧
    findUser dbTwo "u2" = some uRow2 ∧
    reportUser dbTwo "r1" "u2" (some "spam") "u1" =
      ({ dbTwo with reported_users :=
          dbTwo.reported_users ++ [⟨"r1", "u1", "u2", some "spam"⟩] },
        .ok ⟨200, false, "User reported successfully"⟩) ∧
    reportUser (reportUser dbTwo "r1" "u2" (some "spam") "u1").1 "r2" "u2"
        (some "spam") "u1" =
      ({ dbTwo with reported_users := dbTwo.reported_users ++
          [⟨"r1", "u1", "u2", some "spam"⟩, ⟨"r2", "u1", "u2", some "spam"⟩] },
        .ok ⟨200, false, "User reported successfully"⟩) :=
  ⟨rfl, rfl,
    ((c4_reportUser_contract dbTwo "r1" "u2" "u1" (some "spam")).2.2.2
      rfl (by decide) uRow2 rfl).1,
    ((c4_reportUser_contract dbTwo "r1" "u2" "u1" (some "spam")).2.2.2
      rfl (by decide) uRow2 rfl).2 "r2"⟩

/-- **C5.** `blockUser` fails InvalidArgument (400) on a self-block, fails
NotFound (404) when the target is absent, and otherwise succeeds, inserting
the (blocker, blocked) row idempotently: an already-blocked target leaves the
state unchanged, and under the schema's uniqueness bound the final state
holds exactly one matching row. -/
theorem c5_blockUser_contract (db : DB) (nid id actor : String) :
    (id = actor → blockUser db nid id actor =
      (db, .error ⟨400, "You cannot block yourself"⟩)) ∧
    (id ≠ actor → findUser db id = none →
      blockUser db nid id actor = (db, .error ⟨404, "User not found"⟩)) ∧
    (id ≠ actor → ∀ u, findUser db id = some u →
      (blockUser db nid id actor).2 =
        .ok ⟨200, false, "User blocked successfully"⟩ ∧
      (db.blocked_users.any
          (fun b => b.blocker_id == actor && b.blocked_id == id) = true →
        (blockUser db nid id actor).1 = db) ∧
      (db.blocked_users.any
          (fun b => b.blocker_id == actor && b.blocked_id == id) = false →
        (blockUser db nid id actor).1 =
          { db with blocked_users := db.blocked_users ++ [⟨nid, actor, id⟩] }) ∧
      (db.blocked_users.countP
          (fun b => b.blocker_id == actor && b.blocked_id == id) ≤ 1 →
        (blockUser db nid id actor).1.blocked_users.countP
          (fun b => b.blocker_id == actor && b.blocked_id == id) = 1)) := by
  refine ⟨?_, ?_, ?_⟩
  · intro heq
    simp [blockUser, heq]
  · intro hne hfind
    simp [blockUser, hne, getUserByIdService, hfind]
  · intro hne u hfind
    refine ⟨?_, ?_, ?_, ?_⟩
    · simp [blockUser, hne, getUserByIdService, hfind]
    · intro hany
      simp [blockUser, hne, getUserByIdService, hfind, hany]
    · intro hany
      simp [blockUser, hne, getUserByIdService, hfind, hany]
    · intro hle
      by_cases hany : db.blocked_users.any
          (fun b => b.blocker_id == actor && b.blocked_id == id)
      · have hpos : 0 < db.blocked_users.countP
            (fun b => b.blocker_id == actor && b.blocked_id == id) := by
          rcases List.any_eq_true.mp hany with ⟨b, hb, hpb⟩
          exact List.countP_pos_iff.mpr ⟨b, hb, hpb⟩
        have hres : (blockUser db nid id actor).1 = db := by
          simp [blockUser, hne, getUserByIdService, hfind, hany]
        rw [hres]
        omega
      · have hzero : db.blocked_users.countP
            (fun b => b.blocker_id == actor && b.blocked_id == id) = 0 := by
          refine List.countP_eq_zero.mpr ?_
          exact List.any_eq_false.mp (Bool.not_eq_true _ ▸ hany)
        have hres : (blockUser db nid id actor).1 =
            { db with blocked_users := db.blocked_users ++ [⟨nid, actor, id⟩] } := by
          simp [blockUser, hne, getUserByIdService, hfind, hany]
        rw [hres]
        simp [List.countP_append, hzero]

/-- **C5** witness: a fresh block inserts the row; blocking again leaves the
state unchanged (silent no-op) with exactly one matching row. -/
theorem c5_blockUser_contract_witness :
    findUser dbTwo "u2" = some uRow2 ∧
    (blockUser dbTwo "b1" "u2" "u1").2 =
      .ok ⟨200, false, "User blocked successfully"⟩ ∧
    (dbTwo.blocked_users.any
        (fun b => b.blocker_id == "u1" && b.blocked_id == "u2") = false →
      (blockUser dbTwo "b1" "u2" "u1").1 =
        { dbTwo with blocked_users := dbTwo.blocked_users ++ [⟨"b1", "u1", "u2"⟩] }) ∧
    findUser dbBlk "u2" = some uRow2 ∧
    (dbBlk.blocked_users.any
        (fun b => b.blocker_id == "u1" && b.blocked_id == "u2") = true →
      (blockUser dbBlk "b2" "u2" "u1").1 = dbBlk) ∧
    (dbBlk.blocked_users.countP
        (fun b => b.blocker_id == "u1" && b.blocked_id == "u2") ≤ 1 →
      (blockUser dbBlk "b2" "u2" "u1").1.blocked_users.countP
        (fun b => b.blocker_id == "u1" && b.blocked_id == "u2") = 1) :=
  ⟨rfl,
    ((c5_blockUser_contract dbTwo "b1" "u2" "u1").2.2 (by decide) uRow2 rfl).1,
    ((c5_blockUser_contract dbTwo "b1" "u2" "u1").2.2 (by decide) uRow2 rfl).2.2.1,
    rfl,
    ((c5_blockUser_contract dbBlk "b2" "u2" "u1").2.2 (by decide) uRow2 rfl).2.1,
    ((c5_blockUser_contract dbBlk "b2" "u2" "u1").2.2 (by decide) uRow2 rfl).2.2.2⟩

/-- A request body that supplies name and a null status, omits email and
photo, and also tries to smuggle in phone_number, verified, disabled, role. -/
def bodyMix : UpdateUserBody :=
  ⟨some (some "N"), none, none, some none, some "999", some true, some true,
    some "admin"⟩

/-- **C7.** `updateUser` applies exactly the supplied fields among name,
email, photo, status; unsupplied fields keep their stored values; the id,
phone_number, verified, disabled, and role columns are never altered through
this path, whatever the request body carries; a missing target surfaces
NotFound with no change. -/
theorem c7_updateUser_frame (db : DB) (id : String) (body : UpdateUserBody) :
    (findUser db id = none →
      updateUser db id body = (db, .error ⟨404, "User not found"⟩)) ∧
    (∀ u, findUser db id = some u →
      updateUser db id body =
        ({ db with users := db.users.map (fun v =>
            if v.id == id then appliedUpdate (buildUserData body) u else v) },
          .ok ⟨200, false, "User updated successfully"⟩) ∧
      (appliedUpdate (buildUserData body) u).id = u.id ∧
      (appliedUpdate (buildUserData body) u).phone_number = u.phone_number ∧
      (appliedUpdate (buildUserData body) u).verified = u.verified ∧
      (appliedUpdate (buildUserData body) u).disabled = u.disabled ∧
      (appliedUpdate (buildUserData body) u).role = u.role ∧
      (body.name = none → (appliedUpdate (buildUserData body) u).name = u.name) ∧
      (body.email = none → (appliedUpdate (buildUserData body) u).email = u.email) ∧
      (body.photo = none → (appliedUpdate (buildUserData body) u).photo = u.photo) ∧
      (body.status = none → (appliedUpdate (buildUserData body) u).status = u.status) ∧
      (∀ w, body.name = some w → (appliedUpdate (buildUserData body) u).name = w) ∧
      (∀ w, body.email = some w → (appliedUpdate (buildUserData body) u).email = w) ∧
      (∀ w, body.photo = some w → (appliedUpdate (buildUserData body) u).photo = w) ∧
      (∀ w, body.status = some w → (appliedUpdate (buildUserData body) u).status = w)) := by
  constructor
  · intro hfind
    simp [updateUser, updateUserService, hfind]
  · intro u hfind
    refine ⟨?_, rfl, rfl, rfl, rfl, rfl, ?_, ?_, ?_, ?_, ?_, ?_, ?_, ?_⟩
    · simp [updateUser, updateUserService, hfind]
    all_goals
      intro h
      try intro hw
      all_goals simp_all [appliedUpdate, buildUserData]

/-- **C7** witness: updating u1 with a body that supplies name and a null
status and smuggles privileged fields touches only name and status. -/
theorem c7_updateUser_frame_witness :
    findUser dbTwo "u1" = some uRow1 ∧
    (updateUser dbTwo "u1" bodyMix =
      ({ dbTwo with users := dbTwo.users.map (fun v =>
          if v.id == "u1" then appliedUpdate (buildUserData bodyMix) uRow1 else v) },
        .ok ⟨200, false, "User updated successfully"⟩) ∧
      (appliedUpdate (buildUserData bodyMix) uRow1).id = uRow1.id ∧
      (appliedUpdate (buildUserData bodyMix) uRow1).phone_number = uRow1.phone_number ∧
      (appliedUpdate (buildUserData bodyMix) uRow1).verified = uRow1.verified ∧
      (appliedUpdate (buildUserData bodyMix) uRow1).disabled = uRow1.disabled ∧
      (appliedUpdate (buildUserData bodyMix) uRow1).role = uRow1.role ∧
      (bodyMix.name = none → (appliedUpdate (buildUserData bodyMix) uRow1).name = uRow1.name) ∧
      (bodyMix.email = none → (appliedUpdate (buildUserData bodyMix) uRow1).email = uRow1.email) ∧
      (bodyMix.photo = none → (appliedUpdate (buildUserData bodyMix) uRow1).photo = uRow1.photo) ∧
      (bodyMix.status = none → (appliedUpdate (buildUserData bodyMix) uRow1).status = uRow1.status) ∧
      (∀ w, bodyMix.name = some w → (appliedUpdate (buildUserData bodyMix) uRow1).name = w) ∧
      (∀ w, bodyMix.email = some w → (appliedUpdate (buildUserData bodyMix) uRow1).email = w) ∧
      (∀ w, bodyMix.photo = some w → (appliedUpdate (buildUserData bodyMix) uRow1).photo = w) ∧
      (∀ w, bodyMix.status = some w → (appliedUpdate (buildUserData bodyMix) uRow1).status = w)) :=
  ⟨rfl, (c7_updateUser_frame dbTwo "u1" bodyMix).2 uRow1 rfl⟩

/-- **C3** counterexample: with only u1 registered, unblocking the absent
user u2 performs the delete path and responds success (HTTP 200,
error=false, 'User was not blocked') — no NotFound is surfaced, contradicting
the blanket existence-check rule for mutating handlers with a path id. -/
theorem c3_unblock_no_existence_check :
    findUser dbSolo "u2" = none ∧
    unblockUser dbSolo "u2" "u1" =
      (dbSolo, .ok ⟨200, false, "User was not blocked"⟩) := by
  constructor
  · rfl
  · exact unblockUser_no_match dbSolo "u2" "u1" rfl

/-- **C3 (amended).** For reportUser and blockUser (once their earlier
InvalidArgument guards pass) and for updateUser, deleteUser, and the
verification/disabled updates, an absent target surfaces NotFound and the
state is untouched — no mutation precedes the existence check. unblockUser
alone performs its delete with no existence check; when no matching block
row exists it responds success-with-information and the state is unchanged. -/
theorem c3_existence_gate (db : DB) (nid id actor : String)
    (reason : Option String) (body : UpdateUserBody) (v d : Bool)
    (habs : findUser db id = none) :
    (reasonFalsy reason = false → id ≠ actor →
      reportUser db nid id reason actor = (db, .error ⟨404, "User not found"⟩)) ∧
    (id ≠ actor →
      blockUser db nid id actor = (db, .error ⟨404, "User not found"⟩)) ∧
    updateUser db id body = (db, .error ⟨404, "User not found"⟩) ∧
    deleteUser db id = (db, .error ⟨404, "User not found"⟩) ∧
    updateVerificationStatus db id (some v) =
      (db, .error ⟨404, "User not found"⟩) ∧
    updateDisabledStatus db id (some d) =
      (db, .error ⟨404, "User not found"⟩) ∧
    (db.blocked_users.countP
        (fun b => b.blocker_id == actor && b.blocked_id == id) = 0 →
      unblockUser db id actor = (db, .ok ⟨200, false, "User was not blocked"⟩)) := by
  refine ⟨?_, ?_, ?_, ?_, ?_, ?_, ?_⟩
  · intro hf hne
    simp [reportUser, hf, hne, getUserByIdService, habs]
  · intro hne
    simp [blockUser, hne, getUserByIdService, habs]
  · simp [updateUser, updateUserService, habs]
  · simp [deleteUser, deleteUserService, habs]
  · simp [updateVerificationStatus, updateVerificationStatusService, habs]
  · simp [updateDisabledStatus, updateDisabledStatusService, habs]
  · intro hcnt
    refine unblockUser_no_match db id actor ?_
    refine List.any_eq_false.mpr ?_
    exact List.countP_eq_zero.mp hcnt

/-- **C3 (amended)** witness at a one-user state with an absent target. -/
theorem c3_existence_gate_witness :
    findUser dbSolo "u2" = none ∧
    (reasonFalsy (some "r") = false → "u2" ≠ "u1" →
      reportUser dbSolo "n1" "u2" (some "r") "u1" =
        (dbSolo, .error ⟨404, "User not found"⟩)) ∧
    ("u2" ≠ "u1" →
      blockUser dbSolo "n1" "u2" "u1" = (dbSolo, .error ⟨404, "User not found"⟩)) ∧
    updateUser dbSolo "u2" bodyMix = (dbSolo, .error ⟨404, "User not found"⟩) ∧
    deleteUser dbSolo "u2" = (dbSolo, .error ⟨404, "User not found"⟩) ∧
    updateVerificationStatus dbSolo "u2" (some true) =
      (dbSolo, .error ⟨404, "User not found"⟩) ∧
    updateDisabledStatus dbSolo "u2" (some true) =
      (dbSolo, .error ⟨404, "User not found"⟩) ∧
    (dbSolo.blocked_users.countP
        (fun b => b.blocker_id == "u1" && b.blocked_id == "u2") = 0 →
      unblockUser dbSolo "u2" "u1" =
        (dbSolo, .ok ⟨200, false, "User was not blocked"⟩)) :=
  ⟨rfl, c3_existence_gate dbSolo "n1" "u2" "u1" (some "r") bodyMix true true rfl⟩

/-- The messages table after any send: either untouched or extended by one
row that satisfies the target-exclusivity check constraint. -/
theorem sendMessage_messages_shape (db : DB) (msgId senderId : String)
    (toId groupId content_ : Option String) (ty : Int) :
    (sendMessage db msgId senderId toId groupId content_ ty).1.messages
        = db.messages ∨
    ∃ msg, (sendMessage db msgId senderId toId groupId content_ ty).1.messages
        = db.messages ++ [msg] ∧ messagesCheck msg = true := by
  rcases toId with _ | uid <;> rcases groupId with _ | gid
  · left; rfl
  · simp only [sendMessage]
    by_cases h1 : (!((groupMembersOf db gid).any
        (fun m => m.user_id == senderId))) = true
    · rw [if_pos h1]; left; rfl
    · rw [if_neg h1]
      by_cases h2 : ((db.groups.find? (fun g => g.id == gid)).elim false
          (fun g => g.only_admins_can_post) &&
          !((groupMembersOf db gid).any
            (fun m => m.user_id == senderId && m.is_admin))) = true
      · rw [if_pos h2]; left; rfl
      · rw [if_neg h2]; right; exact ⟨_, rfl, rfl⟩
  · simp only [sendMessage]
    by_cases h1 : (db.blocked_users.any (fun b =>
        (b.blocker_id == uid && b.blocked_id == senderId) ||
        (b.blocker_id == senderId && b.blocked_id == uid))) = true
    · rw [if_pos h1]; left; rfl
    · rw [if_neg h1]; right; exact ⟨_, rfl, rfl⟩
  · left; rfl

/-- **C1.** Every message row ever stored satisfies the schema's
target-exclusivity check (exactly one of to_id/group_id non-null): the check
holds of whatever `sendMessage` adds, and a send with both targets or
neither fails InvalidArgument (400) before touching storage. -/
theorem c1_message_target_exclusivity (db : DB) (msgId senderId : String)
    (toId groupId content_ : Option String) (ty : Int)
    (hinv : ∀ m ∈ db.messages, messagesCheck m = true) :
    (∀ m ∈ (sendMessage db msgId senderId toId groupId content_ ty).1.messages,
      messagesCheck m = true) ∧
    (toId = none → groupId = none →
      sendMessage db msgId senderId toId groupId content_ ty =
        (db, .error ⟨400, "Exactly one of user or group target is required"⟩)) ∧
    (∀ a b, toId = some a → groupId = some b →
      sendMessage db msgId senderId toId groupId content_ ty =
        (db, .error ⟨400, "Exactly one of user or group target is required"⟩)) := by
  refine ⟨?_, ?_, ?_⟩
  · rcases sendMessage_messages_shape db msgId senderId toId groupId content_ ty
      with h | ⟨msg, heq, hchk⟩
    · rw [h]; exact hinv
    · rw [heq]
      intro m hm
      rcases List.mem_append.mp hm with hold | hnew
      · exact hinv m hold
      · rcases List.mem_singleton.mp hnew with rfl
        exact hchk
  · intro h1 h2
    subst h1; subst h2
    rfl
  · intro a b h1 h2
    subst h1; subst h2
    rfl

/-- **C1** witness: on a concrete state whose messages all pass the check,
a send with neither target and a send with both targets are both rejected
with InvalidArgument and the state is unchanged. -/
theorem c1_message_target_exclusivity_witness :
    (∀ m ∈ dbSolo.messages, messagesCheck m = true) ∧
    sendMessage dbSolo "m1" "u1" none none none 0 =
      (dbSolo, .error ⟨400, "Exactly one of user or group target is required"⟩) ∧
    sendMessage dbSolo "m1" "u1" (some "u2") (some "g1") none 0 =
      (dbSolo, .error ⟨400, "Exactly one of user or group target is required"⟩) :=
  ⟨fun m hm => absurd hm (by simp [dbSolo]),
    ((c1_message_target_exclusivity dbSolo "m1" "u1" none none none 0
      (fun m hm => absurd hm (by simp [dbSolo]))).2.1 rfl rfl),
    ((c1_message_target_exclusivity dbSolo "m1" "u1" (some "u2") (some "g1") none 0
      (fun m hm => absurd hm (by simp [dbSolo]))).2.2 "u2" "g1" rfl rfl)⟩

/-- **C8.** Deleting a user removes every dependent row — OTPs, sessions,
created groups, memberships, messages sent or received (and transitively the
rows of deleted messages), blocked-user rows on either side, notification
tokens, and reports on either side — while a membership row that merely
records the deleted user as `added_by` survives with that column set null. -/
theorem c8_delete_cascade (db : DB) (uid : String) (u : UserRow)
    (hfound : findUser db uid = some u) :
    deleteUser db uid =
      (deleteUserCascade db uid, .ok ⟨200, false, "User deleted successfully"⟩) ∧
    (∀ v ∈ (deleteUserCascade db uid).users, v.id ≠ uid) ∧
    (∀ o ∈ (deleteUserCascade db uid).otps, o.user_id ≠ some uid) ∧
    (∀ s ∈ (deleteUserCascade db uid).sessions, s.user_id ≠ uid) ∧
    (∀ g ∈ (deleteUserCascade db uid).groups, g.created_by ≠ uid) ∧
    (∀ m ∈ (deleteUserCascade db uid).group_members,
      m.user_id ≠ uid ∧ m.added_by ≠ some uid) ∧
    (∀ m ∈ (deleteUserCascade db uid).messages,
      m.from_id ≠ uid ∧ m.to_id ≠ some uid) ∧
    (∀ w ∈ (deleteUserCascade db uid).user_messages, w.user_id ≠ uid) ∧
    (∀ b ∈ (deleteUserCascade db uid).blocked_users,
      b.blocker_id ≠ uid ∧ b.blocked_id ≠ uid) ∧
    (∀ t ∈ (deleteUserCascade db uid).notification_tokens, t.user_id ≠ uid) ∧
    (∀ r ∈ (deleteUserCascade db uid).reported_users,
      r.reporter_id ≠ uid ∧ r.reported_id ≠ uid) ∧
    (∀ m ∈ db.group_members, m.added_by = some uid → m.user_id ≠ uid →
      (∀ g ∈ db.groups, g.id = m.group_id → g.created_by ≠ uid) →
      { m with added_by := none } ∈ (deleteUserCascade db uid).group_members) := by
  refine ⟨?_, ?_, ?_, ?_, ?_, ?_, ?_, ?_, ?_, ?_, ?_, ?_⟩
  · simp [deleteUser, deleteUserService, hfound]
  · intro x hx
    have h := (List.mem_filter.mp hx).2
    simpa using h
  · intro x hx
    have h := (List.mem_filter.mp hx).2
    simpa using h
  · intro x hx
    have h := (List.mem_filter.mp hx).2
    simpa using h
  · intro x hx
    have h := (List.mem_filter.mp hx).2
    simpa using h
  · intro m hm
    simp only [deleteUserCascade] at hm
    rcases List.mem_map.mp hm with ⟨m0, hm0, rfl⟩
    have h := (List.mem_filter.mp hm0).2
    simp only [Bool.not_eq_true', Bool.or_eq_false_iff] at h
    have huid : m0.user_id ≠ uid := by
      have := h.1
      simpa using this
    by_cases hadd : (m0.added_by == some uid) = true
    · simp [hadd, huid]
    · simp only [hadd, if_neg]
      refine ⟨huid, ?_⟩
      simpa using hadd
  · intro m hm
    have h := (List.mem_filter.mp hm).2
    simp only [Bool.not_eq_true', Bool.or_eq_false_iff] at h
    exact ⟨by simpa using h.1.1, by simpa using h.1.2⟩
  · intro w hw
    have h := (List.mem_filter.mp hw).2
    simp only [Bool.not_eq_true', Bool.or_eq_false_iff] at h
    simpa using h.1
  · intro b hb
    have h := (List.mem_filter.mp hb).2
    simp only [Bool.not_eq_true', Bool.or_eq_false_iff] at h
    exact ⟨by simpa using h.1, by simpa using h.2⟩
  · intro t ht
    have h := (List.mem_filter.mp ht).2
    simpa using h
  · intro r hr
    have h := (List.mem_filter.mp hr).2
    simp only [Bool.not_eq_true', Bool.or_eq_false_iff] at h
    exact ⟨by simpa using h.1, by simpa using h.2⟩
  · intro m hm hadd huser hgroups
    simp only [deleteUserCascade]
    refine List.mem_map.mpr ⟨m, ?_, by simp [hadd]⟩
    refine List.mem_filter.mpr ⟨hm, ?_⟩
    simp only [Bool.not_eq_true', Bool.or_eq_false_iff]
    constructor
    · simpa using huser
    · by_cases hc : (((db.groups.filter (fun g => g.created_by == uid)).map
          (fun g => g.id)).contains m.group_id) = true
      · exfalso
        have hmemg : m.group_id ∈ (db.groups.filter
            (fun g => g.created_by == uid)).map (fun g => g.id) := by
          simpa using hc
        rcases List.mem_map.mp hmemg with ⟨g, hg, hgid⟩
        have hfg := List.mem_filter.mp hg
        exact hgroups g hfg.1 hgid (by simpa using hfg.2)
      · simpa using hc

/-- **C8** witness on a concrete state: deleting u1 cascades, and the
membership row u1 added for u2 survives with `added_by` nulled. -/
theorem c8_delete_cascade_witness :
    findUser dbGrp "u1" = some uRow1 ∧
    deleteUser dbGrp "u1" =
      (deleteUserCascade dbGrp "u1", .ok ⟨200, false, "User deleted successfully"⟩) ∧
    (⟨"gm2", "g1", "u2", false, none⟩ : GroupMemberRow) ∈
      (deleteUserCascade dbGrp "u1").group_members := by
  obtain ⟨h1, -, -, -, -, -, -, -, -, -, -, hsurv⟩ :=
    c8_delete_cascade dbGrp "u1" uRow1 rfl
  exact ⟨rfl, h1,
    hsurv ⟨"gm2", "g1", "u2", false, some "u1"⟩ (by decide) rfl (by decide) (by decide)⟩

/-- Removing the one occurrence of an element from a duplicate-free list
shortens it by exactly one. -/
theorem length_filter_ne_of_nodup (l : List String) (a : String)
    (hnd : l.Nodup) (ha : a ∈ l) :
    (l.filter (fun v => !(v == a))).length = l.length - 1 := by
  induction l with
  | nil => cases ha
  | cons x xs ih =>
    rcases List.nodup_cons.mp hnd with ⟨hx, hxs⟩
    rcases List.mem_cons.mp ha with rfl | hmem
    · rw [List.filter_cons_of_neg (by simp)]
      rw [List.filter_eq_self.mpr]
      · simp
      · intro v hv
        have hvx : v ≠ a := fun h => hx (h ▸ hv)
        simp [hvx]
    · have hxa : ¬(x = a) := fun h => hx (h ▸ hmem)
      rw [List.filter_cons_of_pos (by simp [hxa])]
      have hpos : 0 < xs.length := List.length_pos_of_mem hmem
      have hrec := ih hxs hmem
      simp only [List.length_cons]
      omega

/-- The member user ids of a group are duplicate-free under the table's
UNIQUE (group_id, user_id) constraint. -/
theorem memberIds_nodup (db : DB) (gid : String) (huniq : groupMembersUnique db) :
    ((groupMembersOf db gid).map (fun m => m.user_id)).Nodup := by
  show ((groupMembersOf db gid).map (fun m => m.user_id)).Pairwise (fun a b => a ≠ b)
  rw [List.pairwise_map]
  have hp : (groupMembersOf db gid).Pairwise
      (fun a b => ¬(a.group_id = b.group_id ∧ a.user_id = b.user_id)) :=
    List.Pairwise.filter _ huniq
  refine hp.imp_of_mem ?_
  intro a b ha hb hR hu
  have hga : a.group_id = gid := by simpa using (List.mem_filter.mp ha).2
  have hgb : b.group_id = gid := by simpa using (List.mem_filter.mp hb).2
  exact hR ⟨hga.trans hgb.symm, hu⟩

/-- When the sender is a member, the group fan-out targets exactly the
member count minus one. -/
theorem groupRecipients_length (db : DB) (gid senderId : String)
    (huniq : groupMembersUnique db)
    (hmem : (groupMembersOf db gid).any (fun m => m.user_id == senderId) = true) :
    (groupRecipients db gid senderId).length
      = (groupMembersOf db gid).length - 1 ∧
    1 ≤ (groupMembersOf db gid).length := by
  have hnd := memberIds_nodup db gid huniq
  have hsender : senderId ∈ (groupMembersOf db gid).map (fun m => m.user_id) := by
    rcases List.any_eq_true.mp hmem with ⟨m, hm, hpm⟩
    exact List.mem_map.mpr ⟨m, hm, by simpa using hpm⟩
  constructor
  · have h := length_filter_ne_of_nodup
      ((groupMembersOf db gid).map (fun m => m.user_id)) senderId hnd hsender
    simpa [groupRecipients, List.length_map] using h
  · have hlen : 0 < ((groupMembersOf db gid).map (fun m => m.user_id)).length :=
      List.length_pos_of_mem hsender
    simpa [List.length_map] using hlen

/-- **C2.** A successful direct send creates exactly one UserMessage row; a
successful group send creates exactly the group's member count at send time
minus one (the sender, necessarily a member, is excluded), with every
non-sender member receiving a row for the new message; and any failing send
leaves the database untouched, so fan-out is all-or-nothing. -/
theorem c2_fanout_count (db : DB) (msgId senderId gid uid2 : String)
    (content_ : Option String) (ty : Int)
    (huniq : groupMembersUnique db) :
    (∀ r, (sendMessage db msgId senderId (some uid2) none content_ ty).2 = .ok r →
      (sendMessage db msgId senderId (some uid2) none content_ ty).1.user_messages.length
        = db.user_messages.length + 1) ∧
    (∀ r, (sendMessage db msgId senderId none (some gid) content_ ty).2 = .ok r →
      (sendMessage db msgId senderId none (some gid) content_ ty).1.user_messages.length
        = db.user_messages.length + ((groupMembersOf db gid).length - 1) ∧
      1 ≤ (groupMembersOf db gid).length ∧
      (∀ m ∈ groupMembersOf db gid, m.user_id ≠ senderId →
        ∃ w ∈ (sendMessage db msgId senderId none (some gid) content_ ty).1.user_messages,
          w.user_id = m.user_id ∧ w.message_id = msgId)) ∧
    (∀ t g e, (sendMessage db msgId senderId t g content_ ty).2 = .error e →
      (sendMessage db msgId senderId t g content_ ty).1 = db) := by
  refine ⟨?_, ?_, ?_⟩
  · intro r hok
    simp only [sendMessage] at hok ⊢
    by_cases h1 : (db.blocked_users.any (fun b =>
        (b.blocker_id == uid2 && b.blocked_id == senderId) ||
        (b.blocker_id == senderId && b.blocked_id == uid2))) = true
    · rw [if_pos h1] at hok
      exact absurd hok (by simp)
    · rw [if_neg h1]
      simp
  · intro r hok
    simp only [sendMessage] at hok ⊢
    by_cases h1 : (!((groupMembersOf db gid).any
        (fun m => m.user_id == senderId))) = true
    · rw [if_pos h1] at hok
      exact absurd hok (by simp)
    · rw [if_neg h1] at hok ⊢
      by_cases h2 : (((db.groups.find? (fun g => g.id == gid)).elim false
          (fun g => g.only_admins_can_post)) &&
          !((groupMembersOf db gid).any
            (fun m => m.user_id == senderId && m.is_admin))) = true
      · rw [if_pos h2] at hok
        exact absurd hok (by simp)
      · rw [if_neg h2]
        have hmem : (groupMembersOf db gid).any
            (fun m => m.user_id == senderId) = true := by
          revert h1
          cases (groupMembersOf db gid).any (fun m => m.user_id == senderId) <;> simp
        obtain ⟨hlen, hpos⟩ := groupRecipients_length db gid senderId huniq hmem
        refine ⟨?_, hpos, ?_⟩
        · simp [List.length_append, List.length_map, hlen]
        · intro m hm hne
          refine ⟨⟨msgId ++ "/" ++ m.user_id, m.user_id, msgId, false⟩, ?_, rfl, rfl⟩
          refine List.mem_append.mpr (Or.inr ?_)
          refine List.mem_map.mpr ⟨m.user_id, ?_, rfl⟩
          exact List.mem_filter.mpr
            ⟨List.mem_map.mpr ⟨m, hm, rfl⟩, by simp [hne]⟩
  · intro t g e herr
    rcases t with _ | uid <;> rcases g with _ | gid2
    · rfl
    · simp only [sendMessage] at herr ⊢
      by_cases h1 : (!((groupMembersOf db gid2).any
          (fun m => m.user_id == senderId))) = true
      · rw [if_pos h1]
      · rw [if_neg h1] at herr ⊢
        by_cases h2 : (((db.groups.find? (fun g => g.id == gid2)).elim false
            (fun g => g.only_admins_can_post)) &&
            !((groupMembersOf db gid2).any
              (fun m => m.user_id == senderId && m.is_admin))) = true
        · rw [if_pos h2]
        · rw [if_neg h2] at herr
          exact absurd herr (by simp)
    · simp only [sendMessage] at herr ⊢
      by_cases h1 : (db.blocked_users.any (fun b =>
          (b.blocker_id == uid && b.blocked_id == senderId) ||
          (b.blocker_id == senderId && b.blocked_id == uid))) = true
      · rw [if_pos h1]
      · rw [if_neg h1] at herr
        exact absurd herr (by simp)
    · rfl

/-- **C2** witness on the concrete three-member group: the group send by u1
creates two rows (3 members minus the sender), the direct send one row. -/
theorem c2_fanout_count_witness :
    groupMembersUnique dbGrp ∧
    (sendMessage dbGrp "m1" "u1" none (some "g1") none 0).2 =
      .ok ⟨200, false, "Message sent successfully"⟩ ∧
    (sendMessage dbGrp "m1" "u1" none (some "g1") none 0).1.user_messages.length
      = dbGrp.user_messages.length + ((groupMembersOf dbGrp "g1").length - 1) ∧
    (sendMessage dbGrp "m2" "u1" (some "u2") none none 0).1.user_messages.length
      = dbGrp.user_messages.length + 1 := by
  have hu : groupMembersUnique dbGrp := by
    unfold groupMembersUnique
    decide
  have hgrp := c2_fanout_count dbGrp "m1" "u1" "g1" "u2" none 0 hu
  have hdir := c2_fanout_count dbGrp "m2" "u1" "g1" "u2" none 0 hu
  exact ⟨hu, rfl,
    (hgrp.2.1 ⟨200, false, "Message sent successfully"⟩ rfl).1,
    hdir.1 ⟨200, false, "Message sent successfully"⟩ rfl⟩
